import Mathlib

/-!
Verification of the solar-system visualization component (`src/App.jsx`).

Shallow embedding conventions:
* JS numbers are idealized: configuration values (sizes, distances, speeds,
  pixel coordinates) are rationals `ℚ`; angles and mesh positions, which pass
  through `Math.cos` / `Math.sin`, are reals `ℝ`.
* `Math.random()` draws are supplied as explicit oracle parameters
  (a function `ℕ → ℝ`, one draw per planet, each intended in `[0, 1)`).
* The speeds object (`Object.fromEntries` / spread update) is an association
  list `List (String × ℚ)` looked up by key; all eight planet names are always
  present as keys, so the `getD 0` default of `lookupSpeed` never fires.
* DOM side effects (appendChild / addEventListener and their removals) are
  modelled as explicit state on a `Dom` record.
-/

namespace SolarSystem

/-- A planet descriptor, one entry of the `planetsData` table in `App.jsx`:
`{ name, color, size, distance, speed }`. -/
structure PlanetData where
  name : String
  color : Nat
  size : ℚ
  distance : ℚ
  speed : ℚ
deriving DecidableEq, Repr

/-- The fixed `planetsData` table from `App.jsx` (eight planets). -/
def planetsData : List PlanetData :=
  [ { name := "Mercury", color := 0xaaaaaa, size := 0.3, distance := 4,  speed := 0.04 },
    { name := "Venus",   color := 0xffaa00, size := 0.5, distance := 6,  speed := 0.015 },
    { name := "Earth",   color := 0x3399ff, size := 0.6, distance := 8,  speed := 0.01 },
    { name := "Mars",    color := 0xff3300, size := 0.5, distance := 10, speed := 0.008 },
    { name := "Jupiter", color := 0xffcc99, size := 1.1, distance := 13, speed := 0.004 },
    { name := "Saturn",  color := 0xffff99, size := 1.0, distance := 16, speed := 0.003 },
    { name := "Uranus",  color := 0x99ffff, size := 0.8, distance := 19, speed := 0.002 },
    { name := "Neptune", color := 0x4444ff, size := 0.8, distance := 22, speed := 0.0015 } ]

/-- The speeds state: a mapping from planet name to angular speed, modelled as
an association list (JS object entries in insertion order). -/
abbrev SpeedMap := List (String × ℚ)

/-- `Object.fromEntries(planetsData.map((p) => [p.name, p.speed]))` —
the initializer of the `speeds` state. -/
def initialSpeeds : SpeedMap :=
  planetsData.map (fun p => (p.name, p.speed))

/-- `speeds[name]`: key lookup in the speeds object.  Every name used is one of
the eight planet names, which are always keys (a missing entry would be the
JS `undefined`; the spec calls that a programming error, so the `getD 0`
default is unreachable in every use below). -/
def lookupSpeed (speeds : SpeedMap) (name : String) : ℚ :=
  (speeds.lookup name).getD 0

/-- `setSpeeds((prev) => ({ ...prev, [name]: parseFloat(val) }))` — the object
spread produces a NEW object: an existing key keeps its position and gets the
new value, a fresh key is appended.  `parseFloat` of the slider's decimal
string is modelled as the rational value itself. -/
def handleSpeedChange (prev : SpeedMap) (name : String) (val : ℚ) : SpeedMap :=
  if prev.any (fun e => e.1 == name) then
    prev.map (fun e => if e.1 == name then (e.1, val) else e)
  else
    prev ++ [(name, val)]

/-- A THREE.js `Vector3` (a mesh's `position`). -/
structure Vec3 where
  x : ℝ
  y : ℝ
  z : ℝ

/-- One element of the `planets` array built in the effect:
`{ mesh, data: { ...data, angle: Math.random() * Math.PI * 2 } }`.
The mesh is represented by its id and its `position` vector; the descriptor
and the mutable `angle` are kept as separate fields. -/
structure PlanetState where
  meshId : Nat
  pos : Vec3
  data : PlanetData
  angle : ℝ

/-- Scene object ids: the sun mesh. -/
def sunMeshId : Nat := 0

/-- Scene object ids: the starfield point cloud. -/
def starFieldId : Nat := 1

/-- Scene object ids: the mesh of the `i`-th planet. -/
def planetMeshId (i : Nat) : Nat := 2 + i

/-- Construction of one planet in the effect: a fresh mesh (THREE meshes start
at position `(0, 0, 0)`) and `angle: Math.random() * Math.PI * 2`, where `r`
is the `Math.random()` draw. -/
noncomputable def mkPlanetState (i : Nat) (d : PlanetData) (r : ℝ) : PlanetState :=
  { meshId := planetMeshId i
    pos := ⟨0, 0, 0⟩
    data := d
    angle := r * Real.pi * 2 }

/-- `planetsData.map(...)` in the effect body: builds the eight planet states,
consuming one `Math.random()` draw per planet (`draws i` is the draw used by
planet `i`). -/
noncomputable def buildScene (draws : ℕ → ℝ) : List PlanetState :=
  planetsData.enum.map (fun x => mkPlanetState x.1 x.2 (draws x.1))

/-- The per-planet body of the animation loop:
`data.angle += speeds[data.name];
 mesh.position.x = Math.cos(data.angle) * data.distance;
 mesh.position.z = Math.sin(data.angle) * data.distance;`
(`position.y` is never written). -/
noncomputable def stepPlanet (speeds : SpeedMap) (p : PlanetState) : PlanetState :=
  let a : ℝ := p.angle + (lookupSpeed speeds p.data.name : ℝ)
  { p with
    angle := a
    pos := ⟨Real.cos a * (p.data.distance : ℝ), p.pos.y,
            Real.sin a * (p.data.distance : ℝ)⟩ }

/-- One invocation of `animate` restricted to planet state: if `isPaused` is
false every planet is stepped, otherwise the planet states are untouched
(`controls.update()` and `renderer.render` do not write planet state). -/
noncomputable def frame (isPaused : Bool) (speeds : SpeedMap) (planets : List PlanetState) :
    List PlanetState :=
  if isPaused then planets else planets.map (stepPlanet speeds)

/-! ### The component-level state machine

`App`'s React state is `speeds` and `isPaused`; the effect whose dependency
array is `[speeds, isPaused]` owns the scene.  Because both state values are
in the dependency array, ANY change to either one tears the effect down and
re-runs it, which rebuilds every planet with a fresh `Math.random()` angle.
Each scene-rebuilding event therefore carries the fresh draws it consumes. -/

/-- The component state visible to the claims: the two React state values and
the planet states owned by the current effect instance. -/
structure AppState where
  speeds : SpeedMap
  isPaused : Bool
  planets : List PlanetState

/-- Initial mount: `speeds` seeded from `planetsData`, `isPaused` false, and
the effect runs once, building the scene from the draws. -/
noncomputable def initApp (draws : ℕ → ℝ) : AppState :=
  { speeds := initialSpeeds, isPaused := false, planets := buildScene draws }

/-- Events the component reacts to.  `togglePause` and `sliderChange` change a
value in the effect's dependency array, so each carries the fresh
`Math.random()` draws consumed by the effect re-run it triggers. -/
inductive Event where
  | frameTick : Event
  | togglePause : (ℕ → ℝ) → Event
  | sliderChange : String → ℚ → (ℕ → ℝ) → Event

/-- The component transition: an animation frame advances the current scene
under the captured `speeds` / `isPaused`; a pause toggle flips the flag
(`setIsPaused((paused) => !paused)`) and, since `isPaused` is in the effect
dependency array, rebuilds the scene from fresh draws; a slider change updates
the speed mapping (`handleSpeedChange`) and likewise rebuilds the scene. -/
noncomputable def appStep (st : AppState) : Event → AppState
  | .frameTick =>
      { st with planets := frame st.isPaused st.speeds st.planets }
  | .togglePause draws =>
      { speeds := st.speeds, isPaused := !st.isPaused, planets := buildScene draws }
  | .sliderChange name val draws =>
      { speeds := handleSpeedChange st.speeds name val
        isPaused := st.isPaused
        planets := buildScene draws }

/-! ### The `requestAnimationFrame` loop after teardown

`animate`'s first statement is `requestAnimationFrame(animate)`; the cleanup
function removes the two listeners and the canvas but never calls
`cancelAnimationFrame`. -/

/-- Scheduler-level state of one `animate` loop: whether an invocation of its
callback is queued with `requestAnimationFrame`, how many invocations have
run, and whether the owning effect was torn down. -/
structure LoopState where
  queued : Bool
  framesRun : Nat
  tornDown : Bool
deriving DecidableEq, Repr

/-- The host scheduler fires the queued callback, if any.  The callback body
is `animate`: its FIRST statement re-queues itself (`requestAnimationFrame`),
then it does one frame of work — it never consults whether the effect was
torn down. -/
def runPending (s : LoopState) : LoopState :=
  if s.queued then
    { queued := true, framesRun := s.framesRun + 1, tornDown := s.tornDown }
  else s

/-- The effect cleanup: removes the listeners and the canvas (modelled on
`Dom` below) but contains no `cancelAnimationFrame`, so the queued callback is
left untouched. -/
def teardown (s : LoopState) : LoopState :=
  { s with tornDown := true }

/-! ### The pointer picker (`onMouseMove`) -/

/-- The tooltip overlay element: its `style.left` / `style.top` (in px), its
`innerHTML`, and whether `style.display` is `"block"` (true) or `"none"`
(false). -/
structure Tooltip where
  left : ℚ
  top : ℚ
  text : String
  shown : Bool
deriving DecidableEq, Repr

/-- `planets.map((p) => p.mesh)` — the objects handed to
`raycaster.intersectObjects`: exactly the planet meshes. -/
def pickTargets (planets : List PlanetState) : List Nat :=
  planets.map (fun p => p.meshId)

/-- The `mousemove` handler.  `intersects` is the oracle result of
`raycaster.intersectObjects(planets.map((p) => p.mesh))`: the ids of the hit
objects sorted nearest-to-camera first (ordering delegated to the library),
each drawn from `pickTargets planets`.  Returns the normalized device
coordinates written into `mouse` and the new tooltip state. -/
def onMouseMove (planets : List PlanetState) (innerWidth innerHeight : ℚ)
    (clientX clientY : ℚ) (intersects : List Nat) (tip : Tooltip) :
    (ℚ × ℚ) × Tooltip :=
  let mx := clientX / innerWidth * 2 - 1
  let my := -(clientY / innerHeight) * 2 + 1
  match intersects with
  | [] => ((mx, my), { tip with shown := false })
  | obj :: _ =>
    match planets.find? (fun p => p.meshId == obj) with
    | some p =>
        ((mx, my), { left := clientX + 10, top := clientY + 10,
                     text := p.data.name, shown := true })
    | none => ((mx, my), tip)

/-! ### DOM side effects of the effect (mount / unmount) -/

/-- The id of `renderer.domElement` (the canvas appended to the mount node). -/
def rendererElemId : Nat := 100

/-- Handler ids for the two global listeners registered by the effect. -/
def onMouseMoveId : Nat := 0

/-- Handler id of the `resize` handler. -/
def handleResizeId : Nat := 1

/-- The DOM state the effect touches: the children of the mount node and the
global listener registrations (event type, handler id). -/
structure Dom where
  mountChildren : List Nat
  listeners : List (String × Nat)
deriving DecidableEq, Repr

/-- The effect's DOM writes, in source order:
`mountRef.current.appendChild(renderer.domElement)`, then
`window.addEventListener("mousemove", onMouseMove)`, then
`window.addEventListener("resize", handleResize)`. -/
def mountEffect (d : Dom) : Dom :=
  { mountChildren := d.mountChildren ++ [rendererElemId]
    listeners := d.listeners ++ [("mousemove", onMouseMoveId), ("resize", handleResizeId)] }

/-- `removeEventListener(type, handler)`: deregisters the matching
registration (the first one; the pair is registered at most once). -/
def removeListener (d : Dom) (ev : String) (h : Nat) : Dom :=
  { d with listeners := d.listeners.eraseP (fun l => l.1 == ev && l.2 == h) }

/-- `mountRef.current.removeChild(elem)`: removes that child element. -/
def removeChildElem (d : Dom) (c : Nat) : Dom :=
  { d with mountChildren := d.mountChildren.erase c }

/-- The effect cleanup's DOM writes, in source order:
`removeEventListener("resize", handleResize)`,
`removeEventListener("mousemove", onMouseMove)`,
`removeChild(renderer.domElement)`. -/
def cleanupEffect (d : Dom) : Dom :=
  removeChildElem
    (removeListener (removeListener d "resize" handleResizeId) "mousemove" onMouseMoveId)
    rendererElemId

/-- The initial value of a planet's range slider: `value={speeds[p.name]}`
with the initial `speeds` state. -/
def sliderValue (speeds : SpeedMap) (p : PlanetData) : ℚ :=
  lookupSpeed speeds p.name

/-! ## Helper lemmas -/

lemma any_key_eq_true_of_mem {prev : SpeedMap} {name : String}
    (hmem : name ∈ prev.map Prod.fst) :
    prev.any (fun e => e.1 == name) = true := by
  rcases List.mem_map.1 hmem with ⟨e, he, rfl⟩
  exact List.any_eq_true.2 ⟨e, he, beq_self_eq_true e.1⟩

lemma ite_cond_true {α : Sort _} {a b : α} :
    (if ((true : Bool) = true) then a else b) = a :=
  if_pos rfl

lemma ite_cond_false {α : Sort _} {a b : α} :
    (if ((false : Bool) = true) then a else b) = b :=
  if_neg Bool.false_ne_true

lemma lookup_replace_self {prev : SpeedMap} {name : String} {val : ℚ}
    (hmem : name ∈ prev.map Prod.fst) :
    (prev.map (fun e => if e.1 == name then (e.1, val) else e)).lookup name = some val := by
  induction prev with
  | nil => simp at hmem
  | cons a t ih =>
    rcases a with ⟨k0, v0⟩
    rw [List.map_cons]
    cases hbeq : (k0 == name) with
    | true =>
      have hk := eq_of_beq hbeq
      subst hk
      simp only [ite_cond_true, if_true, List.lookup_cons, beq_self_eq_true]
    | false =>
      have hk : k0 ≠ name := ne_of_beq_false hbeq
      have htail : name ∈ t.map Prod.fst := by
        simp only [List.map_cons, List.mem_cons] at hmem
        rcases hmem with h1 | h2
        · exact absurd h1.symm hk
        · exact h2
      simp only [ite_cond_false, List.lookup_cons,
        show (name == k0) = false from beq_false_of_ne (Ne.symm hk)]
      exact ih htail

lemma lookup_replace_ne {prev : SpeedMap} {name k : String} {val : ℚ}
    (hk : k ≠ name) :
    (prev.map (fun e => if e.1 == name then (e.1, val) else e)).lookup k = prev.lookup k := by
  induction prev with
  | nil => simp
  | cons a t ih =>
    rcases a with ⟨k0, v0⟩
    rw [List.map_cons]
    cases hbeq : (k0 == name) with
    | true =>
      have h0 := eq_of_beq hbeq
      subst h0
      simp only [ite_cond_true, if_true, List.lookup_cons,
        show (k == k0) = false from beq_false_of_ne hk]
      exact ih
    | false =>
      cases hbeq2 : (k == k0) with
      | true =>
        have h2 := eq_of_beq hbeq2
        subst h2
        simp only [ite_cond_false, List.lookup_cons, beq_self_eq_true]
      | false =>
        simp only [ite_cond_false, List.lookup_cons, hbeq2]
        exact ih

lemma keys_replace {prev : SpeedMap} {name : String} {val : ℚ} :
    (prev.map (fun e => if e.1 == name then (e.1, val) else e)).map Prod.fst
      = prev.map Prod.fst := by
  induction prev with
  | nil => rfl
  | cons a t ih =>
    rcases a with ⟨k0, v0⟩
    rw [List.map_cons, List.map_cons, List.map_cons]
    cases hbeq : (k0 == name) with
    | true =>
      simp only [ite_cond_true, if_true]
      rw [ih]
    | false =>
      simp only [ite_cond_false]
      rw [ih]

/-- The Mercury descriptor (head of `planetsData`), used in concrete runs. -/
def mercuryData : PlanetData :=
  { name := "Mercury", color := 0xaaaaaa, size := 0.3, distance := 4, speed := 0.04 }

lemma stepPlanet_angle (speeds : SpeedMap) (p : PlanetState) :
    (stepPlanet speeds p).angle = p.angle + (lookupSpeed speeds p.data.name : ℝ) := rfl

lemma stepPlanet_data (speeds : SpeedMap) (p : PlanetState) :
    (stepPlanet speeds p).data = p.data := rfl

lemma stepPlanet_pos_x (speeds : SpeedMap) (p : PlanetState) :
    (stepPlanet speeds p).pos.x
      = Real.cos ((stepPlanet speeds p).angle) * (p.data.distance : ℝ) := rfl

lemma stepPlanet_pos_z (speeds : SpeedMap) (p : PlanetState) :
    (stepPlanet speeds p).pos.z
      = Real.sin ((stepPlanet speeds p).angle) * (p.data.distance : ℝ) := rfl

lemma stepPlanet_pos_y (speeds : SpeedMap) (p : PlanetState) :
    (stepPlanet speeds p).pos.y = p.pos.y := rfl

lemma stepPlanet_iterate_data (speeds : SpeedMap) (p : PlanetState) (n : ℕ) :
    ((stepPlanet speeds)^[n] p).data = p.data := by
  induction n with
  | zero => rfl
  | succ m ih => rw [Function.iterate_succ_apply', stepPlanet_data, ih]

lemma stepPlanet_iterate_pos_y (speeds : SpeedMap) (p : PlanetState) (n : ℕ) :
    ((stepPlanet speeds)^[n] p).pos.y = p.pos.y := by
  induction n with
  | zero => rfl
  | succ m ih => rw [Function.iterate_succ_apply', stepPlanet_pos_y, ih]

lemma stepPlanet_iterate_angle (speeds : SpeedMap) (p : PlanetState) (n : ℕ) :
    ((stepPlanet speeds)^[n] p).angle
      = p.angle + (n : ℝ) * (lookupSpeed speeds p.data.name : ℝ) := by
  induction n with
  | zero => simp
  | succ m ih =>
    rw [Function.iterate_succ_apply', stepPlanet_angle, stepPlanet_iterate_data, ih]
    push_cast
    ring

lemma frame_false_iterate (speeds : SpeedMap) (n : ℕ) (planets : List PlanetState) :
    (frame false speeds)^[n] planets = planets.map ((stepPlanet speeds)^[n]) := by
  induction n with
  | zero => simp
  | succ m ih =>
    rw [Function.iterate_succ_apply', ih]
    simp only [frame, ite_cond_false, List.map_map]
    rw [Function.iterate_succ']

lemma pos_y_buildScene {draws : ℕ → ℝ} {q : PlanetState}
    (hq : q ∈ buildScene draws) : q.pos.y = 0 := by
  rcases List.mem_map.1 hq with ⟨x, _, rfl⟩
  rfl

/-! ## Claims -/

/-- C2: for any number of animation frames executed while the pause flag is
true, every planet's angle and mesh position (the whole planet state) are
unchanged. -/
theorem claim_C2_paused_frames_leave_planets_unchanged
    (speeds : SpeedMap) (planets : List PlanetState) (n : ℕ) :
    (frame true speeds)^[n] planets = planets := by
  induction n with
  | zero => rfl
  | succ m ih => rw [Function.iterate_succ_apply', ih]; rfl

/-- C5: changing one planet's slider produces a new speed mapping in which
exactly that planet's entry is replaced by the new value: the changed name
looks up to the new value, every other key looks up to its previous value, and
the key set (with order) is preserved.  The previous mapping is not mutated:
`handleSpeedChange` builds a new list and `prev` is untouched by construction
(the spread `{ ...prev, [name]: v }` in the source likewise copies `prev`). -/
theorem claim_C5_slider_change_is_key_local
    (prev : SpeedMap) (name : String) (val : ℚ)
    (hmem : name ∈ prev.map Prod.fst) :
    (handleSpeedChange prev name val).lookup name = some val ∧
    (∀ k, k ≠ name → (handleSpeedChange prev name val).lookup k = prev.lookup k) ∧
    (handleSpeedChange prev name val).map Prod.fst = prev.map Prod.fst := by
  have hany := any_key_eq_true_of_mem hmem
  refine ⟨?_, ?_, ?_⟩
  · simp only [handleSpeedChange, hany, if_true]
    exact lookup_replace_self hmem
  · intro k hk
    simp only [handleSpeedChange, hany, if_true]
    exact lookup_replace_ne hk
  · simp only [handleSpeedChange, hany, if_true]
    exact keys_replace

/-- Witness for C5 at a concrete input: changing Mercury's speed to `0.02`
in the initial mapping sets Mercury's entry and leaves Venus's lookup
unchanged. -/
theorem claim_C5_witness :
    "Mercury" ∈ initialSpeeds.map Prod.fst ∧
    (handleSpeedChange initialSpeeds "Mercury" 0.02).lookup "Mercury" = some 0.02 ∧
    (handleSpeedChange initialSpeeds "Mercury" 0.02).lookup "Venus"
      = initialSpeeds.lookup "Venus" := by
  have h := claim_C5_slider_change_is_key_local initialSpeeds "Mercury" 0.02 (by decide)
  exact ⟨by decide, h.1, h.2.1 "Venus" (by decide)⟩

/-- C7: unmounting right after mounting removes the one display-surface
element inserted at mount and deregisters both global listeners, leaving the
DOM exactly as before the mount — in particular, mounting into an empty DOM
and unmounting leaves zero residual elements and zero residual listeners. -/
theorem claim_C7_unmount_cleans_up
    (d : Dom)
    (hmm : ("mousemove", onMouseMoveId) ∉ d.listeners)
    (hrs : ("resize", handleResizeId) ∉ d.listeners)
    (hc : rendererElemId ∉ d.mountChildren) :
    cleanupEffect (mountEffect d) = d := by
  rcases d with ⟨cs, ls⟩
  have hrs' : ∀ b ∈ ls, ¬((b.1 == "resize" && b.2 == handleResizeId) = true) := by
    rintro ⟨bev, bid⟩ hb hcontra
    rw [Bool.and_eq_true] at hcontra
    simp only [beq_iff_eq] at hcontra
    obtain ⟨rfl, rfl⟩ := hcontra
    exact hrs hb
  have hmm' : ∀ b ∈ ls, ¬((b.1 == "mousemove" && b.2 == onMouseMoveId) = true) := by
    rintro ⟨bev, bid⟩ hb hcontra
    rw [Bool.and_eq_true] at hcontra
    simp only [beq_iff_eq] at hcontra
    obtain ⟨rfl, rfl⟩ := hcontra
    exact hmm hb
  simp only [cleanupEffect, mountEffect, removeListener, removeChildElem, Dom.mk.injEq]
  constructor
  · rw [List.erase_append_right _ hc]
    simp
  · rw [List.eraseP_append_right _ hrs',
      show List.eraseP (fun l => l.1 == "resize" && l.2 == handleResizeId)
          [("mousemove", onMouseMoveId), ("resize", handleResizeId)]
        = [("mousemove", onMouseMoveId)] by decide,
      List.eraseP_append_right _ hmm',
      show List.eraseP (fun l => l.1 == "mousemove" && l.2 == onMouseMoveId)
          [("mousemove", onMouseMoveId)] = [] by decide,
      List.append_nil]

/-- Witness for C7: mount-then-unmount starting from the empty DOM leaves the
empty DOM. -/
theorem claim_C7_witness :
    cleanupEffect (mountEffect ⟨[], []⟩) = (⟨[], []⟩ : Dom) :=
  claim_C7_unmount_cleans_up ⟨[], []⟩ (by decide) (by decide) (by decide)

/-- C8: at startup the speed configuration maps each of the eight planet
names to exactly that planet's descriptor speed, and each planet's range
control is initialized to that planet's current configured speed. -/
theorem claim_C8_initial_speeds_seeded_from_descriptors
    (p : PlanetData) (hp : p ∈ planetsData) :
    initialSpeeds.lookup p.name = some p.speed ∧
    sliderValue initialSpeeds p = p.speed := by
  fin_cases hp <;> exact ⟨rfl, rfl⟩

/-- Witness for C8 at a concrete planet: Mercury's initial configured speed
and initial slider value are its descriptor speed `0.04`. -/
theorem claim_C8_witness :
    initialSpeeds.lookup "Mercury" = some 0.04 ∧
    sliderValue initialSpeeds { name := "Mercury", color := 0xaaaaaa, size := 0.3,
                                distance := 4, speed := 0.04 } = 0.04 := by
  have h := claim_C8_initial_speeds_seeded_from_descriptors
    { name := "Mercury", color := 0xaaaaaa, size := 0.3, distance := 4, speed := 0.04 }
    (List.mem_cons_self _ _)
  exact ⟨h.1, h.2⟩

/-- C1: while the pause flag is false, each frame updates every planet exactly
by `angle := angle + speedConfig[name]`, `position.x = cos(angle) * distance`,
`position.z = sin(angle) * distance`; consequently after `N ≥ 1` unpaused
frames with constant speed `s` for a planet, its angle is its initial angle
plus `N*s` and its position satisfies `x = distance * cos(angle)`,
`z = distance * sin(angle)`, `y = 0`. -/
theorem claim_C1_unpaused_frames_update
    (speeds : SpeedMap) (planets : List PlanetState) (p : PlanetState) (s : ℚ) (n : ℕ)
    (hs : lookupSpeed speeds p.data.name = s) (hy : p.pos.y = 0) (hn : 1 ≤ n) :
    ((stepPlanet speeds p).angle = p.angle + (s : ℝ) ∧
     (stepPlanet speeds p).pos.x
       = Real.cos ((stepPlanet speeds p).angle) * (p.data.distance : ℝ) ∧
     (stepPlanet speeds p).pos.z
       = Real.sin ((stepPlanet speeds p).angle) * (p.data.distance : ℝ)) ∧
    frame false speeds planets = planets.map (stepPlanet speeds) ∧
    (((stepPlanet speeds)^[n] p).angle = p.angle + (n : ℝ) * (s : ℝ) ∧
     ((stepPlanet speeds)^[n] p).pos.x
       = (p.data.distance : ℝ) * Real.cos (((stepPlanet speeds)^[n] p).angle) ∧
     ((stepPlanet speeds)^[n] p).pos.z
       = (p.data.distance : ℝ) * Real.sin (((stepPlanet speeds)^[n] p).angle) ∧
     ((stepPlanet speeds)^[n] p).pos.y = 0) := by
  obtain ⟨m, rfl⟩ : ∃ m, n = m + 1 :=
    ⟨n - 1, (Nat.succ_pred_eq_of_pos hn).symm⟩
  refine ⟨⟨by rw [stepPlanet_angle, hs], stepPlanet_pos_x speeds p, stepPlanet_pos_z speeds p⟩,
    by simp only [frame, ite_cond_false], ?_, ?_, ?_, ?_⟩
  · rw [stepPlanet_iterate_angle, hs]
  · rw [Function.iterate_succ_apply', stepPlanet_pos_x, stepPlanet_iterate_data]
    exact mul_comm _ _
  · rw [Function.iterate_succ_apply', stepPlanet_pos_z, stepPlanet_iterate_data]
    exact mul_comm _ _
  · rw [stepPlanet_iterate_pos_y, hy]

/-- Witness for C1 at a concrete input: Mercury built with draw 0, two
unpaused frames under the initial speeds. -/
theorem claim_C1_witness :
    lookupSpeed initialSpeeds (mkPlanetState 0 mercuryData 0).data.name = 0.04 ∧
    (mkPlanetState 0 mercuryData 0).pos.y = 0 ∧
    ((stepPlanet initialSpeeds)^[2] (mkPlanetState 0 mercuryData 0)).angle
      = (mkPlanetState 0 mercuryData 0).angle + (2 : ℝ) * ((0.04 : ℚ) : ℝ) := by
  have h := claim_C1_unpaused_frames_update initialSpeeds []
    (mkPlanetState 0 mercuryData 0) 0.04 2 rfl rfl (by norm_num)
  exact ⟨rfl, rfl, h.2.2.1⟩

/-- C9 as stated is false: THREE meshes are created at position `(0, 0, 0)`
and a PAUSED frame never writes positions, so after a paused frame on a
freshly built scene Mercury's position satisfies `x² + z² = 0`, not
`distance² = 16`. -/
theorem claim_C9_counterexample :
    (buildScene (fun _ => 0)).head? = some (mkPlanetState 0 mercuryData 0) ∧
    frame true initialSpeeds (buildScene (fun _ => 0)) = buildScene (fun _ => 0) ∧
    (mkPlanetState 0 mercuryData 0).pos.x ^ 2 + (mkPlanetState 0 mercuryData 0).pos.z ^ 2
      = 0 ∧
    ((mkPlanetState 0 mercuryData 0).data.distance : ℝ) ^ 2 = 16 ∧
    (0 : ℝ) ≠ 16 := by
  refine ⟨rfl, rfl, ?_, ?_, by norm_num⟩
  · show (0 : ℝ) ^ 2 + (0 : ℝ) ^ 2 = 0
    norm_num
  · show ((4 : ℚ) : ℝ) ^ 2 = 16
    norm_num

/-- C9 (amended): after every UNPAUSED frame (one or more of them) every
planet in the scene satisfies `x² + z² = distance²` and `y = 0`; paused frames
preserve planet state unchanged (claim C2), but a freshly constructed scene's
meshes sit at the origin until the first unpaused frame runs. -/
theorem claim_C9_orbit_radius_invariant
    (speeds : SpeedMap) (draws : ℕ → ℝ) (n : ℕ) (hn : 1 ≤ n) (p : PlanetState)
    (hp : p ∈ (frame false speeds)^[n] (buildScene draws)) :
    p.pos.x ^ 2 + p.pos.z ^ 2 = ((p.data.distance : ℝ)) ^ 2 ∧ p.pos.y = 0 := by
  rw [frame_false_iterate] at hp
  rcases List.mem_map.1 hp with ⟨q, hq, rfl⟩
  obtain ⟨m, rfl⟩ : ∃ m, n = m + 1 :=
    ⟨n - 1, (Nat.succ_pred_eq_of_pos hn).symm⟩
  constructor
  · rw [Function.iterate_succ_apply', stepPlanet_pos_x, stepPlanet_pos_z,
      stepPlanet_data, stepPlanet_iterate_data]
    have hpi := Real.cos_sq_add_sin_sq
      ((stepPlanet speeds ((stepPlanet speeds)^[m] q)).angle)
    linear_combination (q.data.distance : ℝ) ^ 2 * hpi
  · rw [stepPlanet_iterate_pos_y, pos_y_buildScene hq]

/-- Witness for C9 (amended): Mercury after one unpaused frame on the scene
built with all draws 0 lies at distance 4 from the origin with `y = 0`. -/
theorem claim_C9_witness :
    (stepPlanet initialSpeeds (mkPlanetState 0 mercuryData 0)).pos.x ^ 2
      + (stepPlanet initialSpeeds (mkPlanetState 0 mercuryData 0)).pos.z ^ 2
      = (((stepPlanet initialSpeeds (mkPlanetState 0 mercuryData 0)).data.distance : ℝ)) ^ 2 ∧
    (stepPlanet initialSpeeds (mkPlanetState 0 mercuryData 0)).pos.y = 0 := by
  have hmem : mkPlanetState 0 mercuryData 0 ∈ buildScene (fun _ => 0) :=
    List.mem_of_mem_head? (show (buildScene (fun _ => 0)).head?
      = some (mkPlanetState 0 mercuryData 0) from rfl)
  have hp : stepPlanet initialSpeeds (mkPlanetState 0 mercuryData 0)
      ∈ (frame false initialSpeeds)^[1] (buildScene (fun _ => 0)) := by
    rw [frame_false_iterate]
    exact List.mem_map_of_mem _ hmem
  exact claim_C9_orbit_radius_invariant initialSpeeds (fun _ => 0) 1 (by norm_num)
    (stepPlanet initialSpeeds (mkPlanetState 0 mercuryData 0)) hp

/-- C3: the pause flag does return to its original value after two toggles,
but the resume-from-held-angle half of the claim fails on this code:
`isPaused` is in the effect dependency array, so each toggle tears the scene
down and rebuilds every planet with a FRESH `Math.random()` angle.  Concrete
run: Mercury is built at angle 0 and paused immediately (the angle held at the
first toggle is 0); after the second toggle, with fresh draws 1/2, Mercury's
angle is `π ≠ 0`. -/
theorem claim_C3_pause_toggle_rerandomizes_angles :
    (initApp (fun _ => 0)).isPaused = false ∧
    ((initApp (fun _ => 0)).planets.head?.map (fun p => p.angle)) = some 0 ∧
    (appStep (initApp (fun _ => 0)) (.togglePause (fun _ => 1/2))).isPaused = true ∧
    (appStep (appStep (initApp (fun _ => 0)) (.togglePause (fun _ => 1/2)))
        (.togglePause (fun _ => 1/2))).isPaused = false ∧
    ((appStep (appStep (initApp (fun _ => 0)) (.togglePause (fun _ => 1/2)))
        (.togglePause (fun _ => 1/2))).planets.head?.map (fun p => p.angle))
      = some Real.pi ∧
    Real.pi ≠ 0 := by
  refine ⟨rfl, ?_, rfl, rfl, ?_, Real.pi_ne_zero⟩
  · show some ((0 : ℝ) * Real.pi * 2) = some 0
    norm_num
  · show some ((1 / 2 : ℝ) * Real.pi * 2) = some Real.pi
    congr 1
    ring

/-- C4 as stated is false: the cleanup never calls `cancelAnimationFrame` and
`animate` re-queues itself as its first statement, so the abandoned loop keeps
running after teardown.  Starting from a loop with one queued invocation, two
scheduler steps after teardown execute TWO invocations of the abandoned
callback — more than the claimed at-most-one — and leave it queued again. -/
theorem claim_C4_counterexample :
    (runPending (runPending (teardown ⟨true, 0, false⟩))).framesRun = 2 ∧
    (runPending (runPending (teardown ⟨true, 0, false⟩))).queued = true ∧
    ¬((2 : ℕ) ≤ 1) :=
  ⟨rfl, rfl, by norm_num⟩

/-- C4 (amended): after teardown begins, the queued invocation fires against
the stale captured state and unconditionally reschedules itself; the cleanup
performs no cancellation, so after any `k` scheduler steps the abandoned
callback has executed `k` further times and is still queued — it runs
indefinitely, not at most once. -/
theorem claim_C4_abandoned_loop_never_stops
    (s : LoopState) (hq : s.queued = true) (k : ℕ) :
    (runPending^[k] (teardown s)).framesRun = s.framesRun + k ∧
    (runPending^[k] (teardown s)).queued = true := by
  induction k with
  | zero => exact ⟨rfl, hq⟩
  | succ m ih =>
    rw [Function.iterate_succ_apply']
    constructor
    · simp only [runPending, ih.2, eq_self_iff_true, if_true, ih.1]
      omega
    · simp only [runPending, ih.2, eq_self_iff_true, if_true]

/-- Witness for C4 (amended) at a concrete input: a torn-down loop with a
queued callback and 5 frames already run has executed 3 more frames after 3
scheduler steps and is still queued. -/
theorem claim_C4_witness :
    (⟨true, 5, false⟩ : LoopState).queued = true ∧
    (runPending^[3] (teardown ⟨true, 5, false⟩)).framesRun = 5 + 3 ∧
    (runPending^[3] (teardown ⟨true, 5, false⟩)).queued = true := by
  have h := claim_C4_abandoned_loop_never_stops ⟨true, 5, false⟩ rfl 3
  exact ⟨rfl, h.1, h.2⟩

/-- C10: each planet's initial angle is `Math.random() * π * 2`, in `[0, 2π)`
for a draw in `[0, 1)`; every pause toggle and every slider change re-runs the
effect, rebuilding the scene from fresh draws; and two constructions with
identical inputs (same speeds, same pause flag) can produce different planet
states: with draws all 0 versus all 1/2, the scenes differ after one frame
(Mercury's x is `cos(0.04)·4` versus `cos(π + 0.04)·4`). -/
theorem claim_C10_scene_construction_nondeterministic :
    (∀ (i : ℕ) (d : PlanetData) (r : ℝ), 0 ≤ r → r < 1 →
      (mkPlanetState i d r).angle ∈ Set.Ico 0 (2 * Real.pi)) ∧
    (∀ (st : AppState) (draws : ℕ → ℝ),
      (appStep st (.togglePause draws)).planets = buildScene draws) ∧
    (∀ (st : AppState) (name : String) (val : ℚ) (draws : ℕ → ℝ),
      (appStep st (.sliderChange name val draws)).planets = buildScene draws) ∧
    ((initApp (fun _ => 0)).speeds = (initApp (fun _ => 1 / 2)).speeds ∧
     (initApp (fun _ => 0)).isPaused = (initApp (fun _ => 1 / 2)).isPaused ∧
     (appStep (initApp (fun _ => 0)) .frameTick).planets
       ≠ (appStep (initApp (fun _ => 1 / 2)) .frameTick).planets) := by
  refine ⟨?_, fun st draws => rfl, fun st name val draws => rfl, rfl, rfl, ?_⟩
  · intro i d r hr0 hr1
    refine Set.mem_Ico.2 ⟨?_, ?_⟩
    · show 0 ≤ r * Real.pi * 2
      have := Real.pi_pos
      nlinarith
    · show r * Real.pi * 2 < 2 * Real.pi
      have := Real.pi_pos
      nlinarith
  · intro h
    have hx := congrArg (fun l => l.head?.map (fun p => p.pos.x)) h
    have hx' : Real.cos ((0 : ℝ) * Real.pi * 2 + ((0.04 : ℚ) : ℝ)) * ((4 : ℚ) : ℝ)
        = Real.cos ((1 / 2 : ℝ) * Real.pi * 2 + ((0.04 : ℚ) : ℝ)) * ((4 : ℚ) : ℝ) :=
      Option.some.inj hx
    have e1 : (0 : ℝ) * Real.pi * 2 + ((0.04 : ℚ) : ℝ) = ((0.04 : ℚ) : ℝ) := by ring
    have e2 : (1 / 2 : ℝ) * Real.pi * 2 + ((0.04 : ℚ) : ℝ)
        = ((0.04 : ℚ) : ℝ) + Real.pi := by ring
    rw [e1, e2, Real.cos_add_pi] at hx'
    have hcos : Real.cos ((0.04 : ℚ) : ℝ) = -Real.cos ((0.04 : ℚ) : ℝ) :=
      mul_right_cancel₀ (by norm_num : ((4 : ℚ) : ℝ) ≠ 0) hx'
    have hpos : 0 < Real.cos ((0.04 : ℚ) : ℝ) := by
      apply Real.cos_pos_of_mem_Ioo
      constructor
      · push_cast
        nlinarith [Real.pi_gt_three]
      · push_cast
        nlinarith [Real.pi_gt_three]
    linarith

/-- Witness for C10 at a concrete input: a draw of 1/2 lies in `[0, 1)` and
yields an initial angle in `[0, 2π)`. -/
theorem claim_C10_witness :
    (0 : ℝ) ≤ 1 / 2 ∧ (1 / 2 : ℝ) < 1 ∧
    (mkPlanetState 0 mercuryData (1 / 2)).angle ∈ Set.Ico 0 (2 * Real.pi) := by
  refine ⟨by norm_num, by norm_num, ?_⟩
  exact claim_C10_scene_construction_nondeterministic.1 0 mercuryData (1 / 2)
    (by norm_num) (by norm_num)

/-- C6: on every pointer-move the handler writes normalized device
coordinates `x = (clientX/width)·2 - 1`, `y = -(clientY/height)·2 + 1`; the
ray is cast only against the eight planet meshes (never the sun or the
starfield); if the library reports intersections (sorted nearest-first) the
tooltip is shown at the pointer offset by 10px with the nearest hit planet's
name as text; with no intersection the tooltip is hidden. -/
theorem claim_C6_pointer_move_picking
    (planets : List PlanetState) (vw vh cx cy : ℚ) (intersects : List Nat)
    (tip : Tooltip) :
    (onMouseMove planets vw vh cx cy intersects tip).1
      = (cx / vw * 2 - 1, -(cy / vh) * 2 + 1) ∧
    (∀ draws : ℕ → ℝ,
      pickTargets (buildScene draws)
        = [planetMeshId 0, planetMeshId 1, planetMeshId 2, planetMeshId 3,
           planetMeshId 4, planetMeshId 5, planetMeshId 6, planetMeshId 7] ∧
      sunMeshId ∉ pickTargets (buildScene draws) ∧
      starFieldId ∉ pickTargets (buildScene draws)) ∧
    (intersects = [] →
      (onMouseMove planets vw vh cx cy intersects tip).2 = { tip with shown := false }) ∧
    (∀ obj rest p, intersects = obj :: rest →
      planets.find? (fun q => q.meshId == obj) = some p →
      (onMouseMove planets vw vh cx cy intersects tip).2
        = ⟨cx + 10, cy + 10, p.data.name, true⟩) := by
  refine ⟨?_, ?_, ?_, ?_⟩
  · cases intersects with
    | nil => rfl
    | cons o rest =>
      cases hfind : planets.find? (fun q => q.meshId == o) with
      | none => simp [onMouseMove, hfind]
      | some p => simp [onMouseMove, hfind]
  · intro draws
    refine ⟨rfl, ?_, ?_⟩
    · have e : pickTargets (buildScene draws)
          = [planetMeshId 0, planetMeshId 1, planetMeshId 2, planetMeshId 3,
             planetMeshId 4, planetMeshId 5, planetMeshId 6, planetMeshId 7] := rfl
      rw [e]
      decide
    · have e : pickTargets (buildScene draws)
          = [planetMeshId 0, planetMeshId 1, planetMeshId 2, planetMeshId 3,
             planetMeshId 4, planetMeshId 5, planetMeshId 6, planetMeshId 7] := rfl
      rw [e]
      decide
  · intro h
    subst h
    rfl
  · intro o rest p hint hfind
    subst hint
    simp [onMouseMove, hfind]

/-- Witness for C6 at a concrete input: pointer at (150, 25) in a 200×100
window over Mercury's mesh shows the tooltip at (160, 35) with text
"Mercury"; the normalized coordinates are written as specified. -/
theorem claim_C6_witness :
    (onMouseMove (buildScene (fun _ => 0)) 200 100 150 25 [planetMeshId 0]
        ⟨0, 0, "", false⟩).1
      = (150 / 200 * 2 - 1, -(25 / 100) * 2 + 1) ∧
    (onMouseMove (buildScene (fun _ => 0)) 200 100 150 25 [planetMeshId 0]
        ⟨0, 0, "", false⟩).2
      = ⟨150 + 10, 25 + 10, "Mercury", true⟩ := by
  have h := claim_C6_pointer_move_picking (buildScene (fun _ => 0)) 200 100 150 25
    [planetMeshId 0] ⟨0, 0, "", false⟩
  exact ⟨h.1, h.2.2.2 (planetMeshId 0) [] (mkPlanetState 0 mercuryData 0) rfl rfl⟩

end SolarSystem
